import Mathlib

/-!
Shallow embedding of the TOS MCP server (files
`mcp_server_tos/resources/object.py` and `mcp_server_tos/server.py`).

Pure string-building code (the `x-tos-process` directive builders, the
base64 encoders, `is_text_file`, the credential validation) is translated
directly.  The HTTP layer is modelled by an explicit `TosResponse` value
(status code, declared `content-length` header, accumulated body bytes);
each operation's response handling becomes a function from that value to
`Except TosError OpResult`.
-/

namespace Tos

/-! ### UTF-8 and base64 encoding (Python `str.encode("utf-8")`,
`base64.b64encode`, `base64.urlsafe_b64encode`) -/

/-- UTF-8 encoding of a single code point, as a list of byte values. -/
def utf8EncodeChar (n : Nat) : List Nat :=
  if n < 0x80 then [n]
  else if n < 0x800 then [0xC0 + n / 64, 0x80 + n % 64]
  else if n < 0x10000 then
    [0xE0 + n / 4096, 0x80 + (n / 64) % 64, 0x80 + n % 64]
  else
    [0xF0 + n / 262144, 0x80 + (n / 4096) % 64, 0x80 + (n / 64) % 64,
     0x80 + n % 64]

/-- Python `s.encode("utf-8")`: the UTF-8 bytes of a string. -/
def strToUtf8 (s : String) : List Nat :=
  s.data.flatMap (fun c => utf8EncodeChar c.toNat)

/-- The standard base64 alphabet. -/
def b64Alphabet : String :=
  "ABCDEFGHIJKLMNOPQRSTUVWXYZabcdefghijklmnopqrstuvwxyz0123456789+/"

/-- The URL-safe base64 alphabet (`+` and `/` replaced by `-` and `_`). -/
def urlsafeB64Alphabet : String :=
  "ABCDEFGHIJKLMNOPQRSTUVWXYZabcdefghijklmnopqrstuvwxyz0123456789-_"

/-- Index into a base64 alphabet. -/
def alphaGet (alpha : String) (i : Nat) : Char :=
  alpha.data.getD i '?'

/-- Base64-encode a byte list three bytes at a time, with `=` padding. -/
def b64EncodeChunks (alpha : String) : List Nat → List Char
  | [] => []
  | [a] =>
    [alphaGet alpha (a / 4), alphaGet alpha (a % 4 * 16), '=', '=']
  | [a, b] =>
    [alphaGet alpha (a / 4), alphaGet alpha (a % 4 * 16 + b / 16),
     alphaGet alpha (b % 16 * 4), '=']
  | a :: b :: c :: rest =>
    alphaGet alpha (a / 4) :: alphaGet alpha (a % 4 * 16 + b / 16) ::
    alphaGet alpha (b % 16 * 4 + c / 64) :: alphaGet alpha (c % 64) ::
    b64EncodeChunks alpha rest

/-- Python `base64.b64encode(bs).decode("ascii")`. -/
def b64encode (bs : List Nat) : String :=
  ⟨b64EncodeChunks b64Alphabet bs⟩

/-- Drop trailing `=` characters (Python `.rstrip("=")` on a base64
string, where only trailing padding characters are `=`). -/
def rstripEq (cs : List Char) : List Char :=
  (cs.reverse.dropWhile (fun c => c = '=')).reverse

/-- The helper defined inside `image_watermark` (and inlined in
`image_blind_watermark`):
`base64.urlsafe_b64encode(s.encode("utf-8")).decode("ascii").rstrip("=")`. -/
def url_safe_b64encode (s : String) : String :=
  ⟨rstripEq (b64EncodeChunks urlsafeB64Alphabet (strToUtf8 s))⟩

/-! ### `is_text_file` -/

/-- The `text_extensions` set from `object.py`. -/
def text_extensions : List String :=
  [".txt", ".log", ".json", ".xml", ".yml", ".yaml", ".md",
   ".csv", ".ini", ".conf", ".py", ".js", ".html", ".css",
   ".sh", ".bash", ".cfg", ".properties"]

/-- Python `key.lower()`: each character case-folded (the extensions
compared against are ASCII). -/
def pyLower (s : String) : String :=
  ⟨s.data.map Char.toLower⟩

/-- Python `s.endswith(post)`: the characters of `post` are a suffix of
the characters of `s`. -/
def pyEndsWith (s post : String) : Bool :=
  post.data.isSuffixOf s.data

/-- `is_text_file`: `any(key.lower().endswith(ext) for ext in
text_extensions)`. -/
def is_text_file (key : String) : Bool :=
  text_extensions.any (fun ext => pyEndsWith (pyLower key) ext)

/-! ### Response model and per-operation response handling -/

/-- Python truthiness of an optional string (`if s:`): present and
non-empty. -/
def truthy : Option String → Bool
  | some s => s ≠ ""
  | none => false

/-- The HTTP response an operation receives: status code, the declared
`content-length` header (absent header modelled as `none`; the code reads
it with default `"0"`), and the body bytes accumulated from the chunk
stream. -/
structure TosResponse where
  status_code : Nat
  contentLength : Option Nat
  body : List Nat
  deriving DecidableEq

/-- The value an operation returns on success: either the accumulated
bytes decoded as UTF-8 text (`content.decode("utf-8")`) or the base64
string `base64.b64encode(content).decode()`. -/
inductive OpResult where
  | utf8Text (bytes : List Nat)
  | base64Str (s : String)
  deriving DecidableEq

/-- The exceptions an operation raises while handling the response. -/
inductive TosError where
  | tooLarge
  | serverError
  deriving DecidableEq

/-- The response-handling block shared verbatim by every operation:
accept status 200/206, raise `tooLarge` when the declared content length
exceeds `max_object_size`, otherwise accumulate the body and hand it to
the operation-specific tail. -/
def fetchWith (max_object_size : Nat) (tail : List Nat → OpResult)
    (resp : TosResponse) : Except TosError OpResult :=
  if resp.status_code = 200 ∨ resp.status_code = 206 then
    if resp.contentLength.getD 0 > max_object_size then
      .error .tooLarge
    else
      .ok (tail resp.body)
  else
    .error .serverError

/-- The tail shared by the saveas-capable operations: UTF-8 text when
`saveas_object` is truthy, base64 otherwise. -/
def saveasTail (saveas_object : Option String) (content : List Nat) :
    OpResult :=
  if truthy saveas_object then .utf8Text content
  else .base64Str (b64encode content)

/-- `get_object` response handling: text extensions are UTF-8 decoded,
everything else base64-encoded. -/
def get_object (max_object_size : Nat) (key : String)
    (resp : TosResponse) : Except TosError OpResult :=
  fetchWith max_object_size
    (fun content =>
      if is_text_file key then .utf8Text content
      else .base64Str (b64encode content))
    resp

/-- `video_info` response handling: always UTF-8 text. -/
def video_info (max_object_size : Nat) (resp : TosResponse) :
    Except TosError OpResult :=
  fetchWith max_object_size (fun content => .utf8Text content) resp

/-- `image_info` response handling: always UTF-8 text. -/
def image_info (max_object_size : Nat) (resp : TosResponse) :
    Except TosError OpResult :=
  fetchWith max_object_size (fun content => .utf8Text content) resp

/-- `video_snapshot` response handling. -/
def video_snapshot_run (max_object_size : Nat)
    (saveas_object : Option String) (resp : TosResponse) :
    Except TosError OpResult :=
  fetchWith max_object_size (saveasTail saveas_object) resp

/-- `image_process` response handling. -/
def image_process_run (max_object_size : Nat)
    (saveas_object : Option String) (resp : TosResponse) :
    Except TosError OpResult :=
  fetchWith max_object_size (saveasTail saveas_object) resp

/-- `image_format` response handling. -/
def image_format_run (max_object_size : Nat)
    (saveas_object : Option String) (resp : TosResponse) :
    Except TosError OpResult :=
  fetchWith max_object_size (saveasTail saveas_object) resp

/-- `image_resize` response handling. -/
def image_resize_run (max_object_size : Nat)
    (saveas_object : Option String) (resp : TosResponse) :
    Except TosError OpResult :=
  fetchWith max_object_size (saveasTail saveas_object) resp

/-- `image_watermark` response handling. -/
def image_watermark_run (max_object_size : Nat)
    (saveas_object : Option String) (resp : TosResponse) :
    Except TosError OpResult :=
  fetchWith max_object_size (saveasTail saveas_object) resp

/-- `image_blind_watermark` response handling. -/
def image_blind_watermark_run (max_object_size : Nat)
    (saveas_object : Option String) (resp : TosResponse) :
    Except TosError OpResult :=
  fetchWith max_object_size (saveasTail saveas_object) resp

/-! ### Directive builders (the `x-tos-process` strings and queries) -/

/-- Join a `params` dict (in insertion order) the way every builder does:
`"".join(f",{k}_{v}" for k, v in params.items())`. -/
def joinKV (params : List (String × String)) : String :=
  String.join (params.map (fun kv => "," ++ kv.1 ++ "_" ++ kv.2))

/-- A dict entry inserted under `if v is not None:` for an int-valued
parameter. -/
def optToList (k : String) (v : Option Int) : List (String × String) :=
  match v with
  | some n => [(k, toString n)]
  | none => []

/-- A dict entry inserted under `if v is not None:` for a string-valued
parameter. -/
def optStrToList (k : String) (v : Option String) :
    List (String × String) :=
  match v with
  | some s => [(k, s)]
  | none => []

/-- A dict entry inserted under a truthiness test `if v:` for a
string-valued parameter. -/
def truthyStrToList (k : String) (v : Option String) :
    List (String × String) :=
  match v with
  | some s => if s = "" then [] else [(k, s)]
  | none => []

/-- The `x-tos-save-object` / `x-tos-save-bucket` query entries shared
verbatim by every saveas-capable operation:
`base64.b64encode(s.encode("utf-8")).decode("ascii")`, each added under a
truthiness test. -/
def saveQuery (saveas_object saveas_bucket : Option String) :
    List (String × String) :=
  (match saveas_object with
   | some s =>
     if s = "" then [] else [("x-tos-save-object", b64encode (strToUtf8 s))]
   | none => []) ++
  (match saveas_bucket with
   | some s =>
     if s = "" then [] else [("x-tos-save-bucket", b64encode (strToUtf8 s))]
   | none => [])

/-- The `params` dict built by `video_snapshot` (insertion order `t`,
`w`, `h`, `m`, `f`, `ar`; every entry guarded by `is not None`). -/
def video_snapshot_params (time width height : Option Int)
    (mode output_format auto_rotate : Option String) :
    List (String × String) :=
  optToList "t" time ++ optToList "w" width ++ optToList "h" height ++
  optStrToList "m" mode ++ optStrToList "f" output_format ++
  optStrToList "ar" auto_rotate

/-- The `x-tos-process` value built by `video_snapshot`. -/
def video_snapshot_process (time width height : Option Int)
    (mode output_format auto_rotate : Option String) : String :=
  let params := video_snapshot_params time width height mode
    output_format auto_rotate
  if params.isEmpty then "video/snapshot"
  else "video/snapshot" ++ joinKV params

/-- The `x-tos-process` value built by `image_format`. -/
def image_format_process (output_format : String) : String :=
  "image/format," ++ output_format

/-- The `params` dict built by `image_resize`: when `p` is given it is
the only entry; otherwise `m` (truthy test), `w`, `h`, `l`, `s`, `limit`
(`is not None` tests) and `color` (truthy test), in insertion order. -/
def image_resize_params (mode : Option String)
    (width height long short limit p : Option Int)
    (color : Option String) : List (String × String) :=
  match p with
  | some pv => [("p", toString pv)]
  | none =>
    truthyStrToList "m" mode ++ optToList "w" width ++
    optToList "h" height ++ optToList "l" long ++ optToList "s" short ++
    optToList "limit" limit ++ truthyStrToList "color" color

/-- The `x-tos-process` value built by `image_resize`. -/
def image_resize_process (mode : Option String)
    (width height long short limit p : Option Int)
    (color : Option String) : String :=
  let params := image_resize_params mode width height long short limit
    p color
  if params.isEmpty then "image/resize"
  else "image/resize" ++ joinKV params

/-- The `x-tos-process` value built by `image_blind_watermark`: the
`text` entry is always present, URL-safe base64 encoded with padding
stripped; `version` and `level` are added under `is not None`. -/
def image_blind_watermark_process (text : String)
    (version level : Option Int) : String :=
  "image/blindwatermark" ++ joinKV
    ([("text", url_safe_b64encode text)] ++
     optToList "version" version ++ optToList "level" level)

/-! ### `image_watermark` -/

/-- One watermark config dict.  Only the keys the code reads are
modelled (the code ignores every other key).  `none` is an absent key. -/
structure WatermarkConfig where
  image : Option String := none
  image_process : Option String := none
  text : Option String := none
  font_type : Option String := none
  transparency : Option Int := none
  gravity : Option String := none
  x : Option Int := none
  y : Option Int := none
  voffset : Option Int := none
  rotate : Option Int := none
  fill : Option Int := none
  color : Option String := none
  size : Option Int := none
  shadow : Option Int := none
  p : Option Int := none
  order : Option Int := none
  align : Option Int := none
  interval : Option Int := none
  deriving DecidableEq

/-- Truthiness filter on an optional string: `some s` survives only when
non-empty. -/
def truthyStr : Option String → Option String
  | some s => if s = "" then none else some s
  | none => none

/-- The value encoded for the `image` parameter: the watermark image
key, suffixed with `?x-tos-process=<image_process>` when `image_process`
is truthy. -/
def watermarkImageVal (c : WatermarkConfig) : Option String :=
  (truthyStr c.image).map (fun img =>
    match truthyStr c.image_process with
    | some ip => img ++ "?x-tos-process=" ++ ip
    | none => img)

/-- The key/value pairs `image_watermark` may emit for one config, in
source order: `image`, `text`, `type` (truthy tests, URL-safe base64
encoded) then the `param_map` entries (`is not None` tests, raw values).
`none` in the second component means the parameter is skipped. -/
def watermarkFields (c : WatermarkConfig) :
    List (String × Option String) :=
  [("image", (watermarkImageVal c).map url_safe_b64encode),
   ("text", (truthyStr c.text).map url_safe_b64encode),
   ("type", (truthyStr c.font_type).map url_safe_b64encode),
   ("t", c.transparency.map toString),
   ("g", c.gravity),
   ("x", c.x.map toString),
   ("y", c.y.map toString),
   ("voffset", c.voffset.map toString),
   ("rotate", c.rotate.map toString),
   ("fill", c.fill.map toString),
   ("color", c.color),
   ("size", c.size.map toString),
   ("shadow", c.shadow.map toString),
   ("P", c.p.map toString),
   ("order", c.order.map toString),
   ("align", c.align.map toString),
   ("interval", c.interval.map toString)]

/-- The `params_list` built for one watermark config: each present field
contributes `f"{k}_{v}"`. -/
def watermarkParams (c : WatermarkConfig) : List String :=
  (watermarkFields c).flatMap (fun kv =>
    match kv.2 with
    | some v => [kv.1 ++ "_" ++ v]
    | none => [])

/-- The action emitted for one config: `"watermark," + ",".join(params_list)`
when `params_list` is non-empty, nothing otherwise. -/
def watermarkAction (c : WatermarkConfig) : Option String :=
  let ps := watermarkParams c
  if ps.isEmpty then none
  else some ("watermark," ++ String.intercalate "," ps)

/-- The `x-tos-process` value built by `image_watermark`:
`"image/" + "/".join(actions)`. -/
def image_watermark_process (watermarks : List WatermarkConfig) : String :=
  "image/" ++ String.intercalate "/" (watermarks.filterMap watermarkAction)

/-- The parameter keys that can appear in a watermark action. -/
def watermarkKeys : List String :=
  ["image", "text", "type", "t", "g", "x", "y", "voffset", "rotate",
   "fill", "color", "size", "shadow", "P", "order", "align", "interval"]

/-- The comma/slash grammar of a watermark directive: `image/` followed
by watermark actions joined with `/`, each action the word `watermark`
and its `key_value` parameters joined with `,`. -/
def conformsWatermarkGrammar (s : String) : Prop :=
  ∃ actions : List String, actions ≠ [] ∧
    s = "image/" ++ String.intercalate "/" actions ∧
    ∀ a ∈ actions, ∃ ps : List String, ps ≠ [] ∧
      a = String.intercalate "," ("watermark" :: ps) ∧
      ∀ q ∈ ps, ∃ k v, k ∈ watermarkKeys ∧ q = k ++ "_" ++ v

/-! ### Credential resolver (`server.py`) -/

/-- The `Credential` value built on success (`ak`, `sk`, `session_token`,
`expired_time`). -/
structure Credential where
  access_key : String
  secret_key : String
  security_token : String
  expired_time : Option Int
  deriving DecidableEq

/-- The fields `get_credential_from_request` reads from the decoded JSON
object (`data.get(...)`; `none` is an absent field). -/
structure StsData where
  CurrentTime : Option Int := none
  ExpiredTime : Option Int := none
  AccessKeyId : Option String := none
  SecretAccessKey : Option String := none
  SessionToken : Option String := none
  deriving DecidableEq

/-- The errors `get_credential_from_request` raises itself. -/
inductive CredError where
  | missingAuth
  | invalidCred
  | decodeFailure
  deriving DecidableEq

/-- The bytes after the first space of the char list, if any. -/
def afterFirstSpace : List Char → Option (List Char)
  | [] => none
  | c :: rest => if c = ' ' then some rest else afterFirstSpace rest

/-- `if " " in auth: _, base64_data = auth.split(" ", 1)`: keep only the
part after the first space when a space is present. -/
def stripScheme (auth : String) : String :=
  match afterFirstSpace auth.data with
  | some rest => ⟨rest⟩
  | none => auth

/-- `auth = header or env or raise`: the authorization value comes from
the request header, then from the environment variable, else the call
fails. -/
def resolveAuth (header env : Option String) : Except CredError String :=
  match header with
  | some a => .ok a
  | none =>
    match env with
    | some a => .ok a
    | none => .error .missingAuth

/-- The field checks after JSON decoding: `not ak or not sk or not
session_token` raises, otherwise `Credential(ak, sk, session_token,
expired_time)` is returned. -/
def validateCredential (data : StsData) : Except CredError Credential :=
  match data.AccessKeyId, data.SecretAccessKey, data.SessionToken with
  | some ak, some sk, some st =>
    if ak = "" ∨ sk = "" ∨ st = "" then .error .invalidCred
    else .ok ⟨ak, sk, st, data.ExpiredTime⟩
  | _, _, _ => .error .invalidCred

/-- `get_credential_from_request`.  The library pipeline
`json.loads(base64.b64decode(x).decode("utf-8"))` is abstracted as the
function argument `decodeJson` (its failures propagate, as the code
re-raises every exception). -/
def get_credential_from_request (header env : Option String)
    (decodeJson : String → Except CredError StsData) :
    Except CredError Credential := do
  let auth ← resolveAuth header env
  let data ← decodeJson (stripScheme auth)
  validateCredential data

/-! ### Helper lemmas -/

theorem intercalate_go_append (sep pre : String) :
    ∀ (l : List String) (acc : String),
      String.intercalate.go (pre ++ acc) sep l =
        pre ++ String.intercalate.go acc sep l := by
  intro l
  induction l with
  | nil => intro acc; rfl
  | cons a as ih =>
    intro acc
    show String.intercalate.go (pre ++ acc ++ sep ++ a) sep as =
      pre ++ String.intercalate.go (acc ++ sep ++ a) sep as
    rw [String.append_assoc, String.append_assoc, ← String.append_assoc acc]
    exact ih (acc ++ sep ++ a)

theorem intercalate_cons (sep x : String) (l : List String) (h : l ≠ []) :
    String.intercalate sep (x :: l) =
      x ++ sep ++ String.intercalate sep l := by
  cases l with
  | nil => cases h rfl
  | cons y ys =>
    show String.intercalate.go (x ++ sep ++ y) sep ys =
      x ++ sep ++ String.intercalate.go y sep ys
    exact intercalate_go_append sep (x ++ sep) (ys) y

/-! ### Claim theorems -/

/-- Claim C4, counterexample: `image_resize` accepts `p = 5000`, far
outside the documented domain 0-1000, and silently concatenates it into
the directive instead of rejecting it. -/
theorem C4_counterexample :
    image_resize_process none none none none none none (some 5000) none
        = "image/resize,p_5000" ∧
      ¬((0 : Int) ≤ 5000 ∧ (5000 : Int) ≤ 1000) := by
  constructor
  · rfl
  · decide

/-- Claim C4, amended: the directive builders perform no domain
validation at all; every supplied parameter value, in range or not, is
concatenated into the `x-tos-process` string unchanged. -/
theorem C4_amended (pv ver lev tr rot : Int) (t : String) :
    image_resize_process none none none none none none (some pv) none
        = "image/resize,p_" ++ toString pv ∧
      image_blind_watermark_process t (some ver) (some lev)
        = "image/blindwatermark,text_" ++ url_safe_b64encode t ++
            ",version_" ++ toString ver ++ ",level_" ++ toString lev ∧
      watermarkParams { transparency := some tr, rotate := some rot }
        = ["t_" ++ toString tr, "rotate_" ++ toString rot] := by
  refine ⟨rfl, ?_, rfl⟩
  apply String.ext
  simp [image_blind_watermark_process, joinKV, String.join, optToList,
    String.data_append, List.append_assoc]

/-- Claim C8: in `image_resize` a non-`none` percentage `p` overrides
every dimension parameter and yields exactly `image/resize,p_<p>`; with
`p = none` the params dict consists of exactly the dimension entries. -/
theorem C8 (mode : Option String) (width height long short limit : Option Int)
    (color : Option String) (pv : Int) :
    image_resize_process mode width height long short limit (some pv) color
        = "image/resize,p_" ++ toString pv ∧
      image_resize_params mode width height long short limit none color
        = truthyStrToList "m" mode ++ optToList "w" width ++
          optToList "h" height ++ optToList "l" long ++
          optToList "s" short ++ optToList "limit" limit ++
          truthyStrToList "color" color :=
  ⟨rfl, rfl⟩

/-- Claim C9: with an empty watermark list, or configs carrying no
recognized key, no action is emitted and the directive is exactly
`image/`. -/
theorem C9 (ws : List WatermarkConfig) (h : ∀ c ∈ ws, c = {}) :
    image_watermark_process ws = "image/" := by
  have hfm : ws.filterMap watermarkAction = [] := by
    rw [List.filterMap_eq_nil_iff]
    intro c hc
    rw [h c hc]
    rfl
  show "image/" ++ String.intercalate "/" (ws.filterMap watermarkAction)
      = "image/"
  rw [hfm]
  exact String.append_empty _

/-- Claim C9, witness at the singleton list holding one empty config. -/
theorem C9_witness : image_watermark_process [{}] = "image/" :=
  C9 [{}] (by intro c hc; exact List.mem_singleton.mp hc)

/-- Claim C2: `image_watermark` URL-safe base64-encodes (padding
stripped) the `image`, `text` and `font_type` values,
`image_blind_watermark` URL-safe base64-encodes its `text`, the saveas
query values use standard base64, and other parameter values (here
`gravity`) are concatenated raw. -/
theorem C2 (img txt ft g so sb bt : String)
    (himg : img ≠ "") (htxt : txt ≠ "") (hft : ft ≠ "")
    (hso : so ≠ "") (hsb : sb ≠ "") :
    watermarkParams { image := some img, text := some txt,
                      font_type := some ft, gravity := some g }
        = ["image_" ++ url_safe_b64encode img,
           "text_" ++ url_safe_b64encode txt,
           "type_" ++ url_safe_b64encode ft, "g_" ++ g] ∧
      image_blind_watermark_process bt none none
        = "image/blindwatermark,text_" ++ url_safe_b64encode bt ∧
      saveQuery (some so) (some sb)
        = [("x-tos-save-object", b64encode (strToUtf8 so)),
           ("x-tos-save-bucket", b64encode (strToUtf8 sb))] := by
  refine ⟨?_, rfl, ?_⟩
  · simp [watermarkParams, watermarkFields, watermarkImageVal, truthyStr,
      himg, htxt, hft]
  · simp [saveQuery, hso, hsb]

/-- Claim C2, witness at concrete watermark, blind-watermark and saveas
inputs. -/
theorem C2_witness :
    ("logo.png" : String) ≠ "" ∧
      (watermarkParams { image := some "logo.png", text := some "hi",
                         font_type := some "wqy-zenhei",
                         gravity := some "nw" }
          = ["image_" ++ url_safe_b64encode "logo.png",
             "text_" ++ url_safe_b64encode "hi",
             "type_" ++ url_safe_b64encode "wqy-zenhei", "g_" ++ "nw"] ∧
        image_blind_watermark_process "hi" none none
          = "image/blindwatermark,text_" ++ url_safe_b64encode "hi" ∧
        saveQuery (some "out.png") (some "bkt")
          = [("x-tos-save-object", b64encode (strToUtf8 "out.png")),
             ("x-tos-save-bucket", b64encode (strToUtf8 "bkt"))]) :=
  ⟨by decide,
   C2 "logo.png" "hi" "wqy-zenhei" "nw" "out.png" "bkt" "hi"
     (by decide) (by decide) (by decide) (by decide) (by decide)⟩

/-- Claim C1, counterexample: with no content-length header the guard
reads 0, so an eleven-byte body passes a ten-byte limit and `get_object`
returns the accumulated content instead of raising the too-large
error. -/
theorem C1_counterexample :
    (List.replicate 11 104).length > 10 ∧
      get_object 10 "a.bin" ⟨200, none, List.replicate 11 104⟩
        = .ok (.base64Str (b64encode (List.replicate 11 104))) ∧
      get_object 10 "a.bin" ⟨200, none, List.replicate 11 104⟩
        ≠ .error .tooLarge := by
  refine ⟨by decide, rfl, ?_⟩
  intro h
  rw [show get_object 10 "a.bin" ⟨200, none, List.replicate 11 104⟩
      = .ok (.base64Str (b64encode (List.replicate 11 104))) from rfl] at h
  exact Except.noConfusion h

/-- Claim C1, amended: on a 200/206 response every object-fetching
operation compares the declared content-length header (default 0 when
absent) against max_object_size once, before accumulating; it raises the
too-large error exactly when that header value exceeds the limit, and
otherwise returns the accumulated content even if the body itself is
larger. -/
theorem C1_amended (max_object_size : Nat) (key : String)
    (so : Option String) (resp : TosResponse)
    (hok : resp.status_code = 200 ∨ resp.status_code = 206) :
    (resp.contentLength.getD 0 > max_object_size →
       get_object max_object_size key resp = .error .tooLarge ∧
       video_info max_object_size resp = .error .tooLarge ∧
       image_info max_object_size resp = .error .tooLarge ∧
       video_snapshot_run max_object_size so resp = .error .tooLarge ∧
       image_process_run max_object_size so resp = .error .tooLarge ∧
       image_format_run max_object_size so resp = .error .tooLarge ∧
       image_resize_run max_object_size so resp = .error .tooLarge ∧
       image_watermark_run max_object_size so resp = .error .tooLarge ∧
       image_blind_watermark_run max_object_size so resp
         = .error .tooLarge) ∧
    (resp.contentLength.getD 0 ≤ max_object_size →
       get_object max_object_size key resp
         = .ok (if is_text_file key then .utf8Text resp.body
                else .base64Str (b64encode resp.body)) ∧
       video_info max_object_size resp = .ok (.utf8Text resp.body) ∧
       image_info max_object_size resp = .ok (.utf8Text resp.body) ∧
       video_snapshot_run max_object_size so resp
         = .ok (saveasTail so resp.body) ∧
       image_process_run max_object_size so resp
         = .ok (saveasTail so resp.body) ∧
       image_format_run max_object_size so resp
         = .ok (saveasTail so resp.body) ∧
       image_resize_run max_object_size so resp
         = .ok (saveasTail so resp.body) ∧
       image_watermark_run max_object_size so resp
         = .ok (saveasTail so resp.body) ∧
       image_blind_watermark_run max_object_size so resp
         = .ok (saveasTail so resp.body)) := by
  constructor
  · intro h
    refine ⟨?_, ?_, ?_, ?_, ?_, ?_, ?_, ?_, ?_⟩ <;>
      simp [get_object, video_info, image_info, video_snapshot_run,
        image_process_run, image_format_run, image_resize_run,
        image_watermark_run, image_blind_watermark_run, fetchWith, hok, h]
  · intro h
    have h2 : ¬ resp.contentLength.getD 0 > max_object_size := by omega
    refine ⟨?_, ?_, ?_, ?_, ?_, ?_, ?_, ?_, ?_⟩ <;>
      simp [get_object, video_info, image_info, video_snapshot_run,
        image_process_run, image_format_run, image_resize_run,
        image_watermark_run, image_blind_watermark_run, fetchWith, hok, h2]

/-- Claim C1 amended, witness: a header of 20 bytes trips a 10-byte
limit, and a header of 5 bytes passes it. -/
theorem C1_amended_witness :
    get_object 10 "a.txt" ⟨200, some 20, [104]⟩ = .error .tooLarge ∧
      video_snapshot_run 10 none ⟨206, some 5, [104]⟩
        = .ok (saveasTail none [104]) :=
  ⟨((C1_amended 10 "a.txt" none ⟨200, some 20, [104]⟩
      (Or.inl rfl)).1 (by decide)).1,
   (((((C1_amended 10 "a.txt" none ⟨206, some 5, [104]⟩
      (Or.inr rfl)).2 (by decide)).2).2).2).1⟩

/-- Claim C5: on a successful in-limit response, a truthy
`saveas_object` makes every saveas-capable operation return the body as
UTF-8 text (the stored-object information) and puts the base64-encoded
save target into the query, while without a saveas target the body comes
back as a base64-encoded string. -/
theorem C5 (max_object_size : Nat) (resp : TosResponse)
    (sb : Option String)
    (hok : resp.status_code = 200 ∨ resp.status_code = 206)
    (hlen : resp.contentLength.getD 0 ≤ max_object_size) :
    (∀ s : String, s ≠ "" →
       (video_snapshot_run max_object_size (some s) resp
           = .ok (.utf8Text resp.body) ∧
         image_process_run max_object_size (some s) resp
           = .ok (.utf8Text resp.body) ∧
         image_format_run max_object_size (some s) resp
           = .ok (.utf8Text resp.body) ∧
         image_resize_run max_object_size (some s) resp
           = .ok (.utf8Text resp.body) ∧
         image_watermark_run max_object_size (some s) resp
           = .ok (.utf8Text resp.body) ∧
         image_blind_watermark_run max_object_size (some s) resp
           = .ok (.utf8Text resp.body)) ∧
       ("x-tos-save-object", b64encode (strToUtf8 s))
         ∈ saveQuery (some s) sb) ∧
    (∀ so : Option String, truthy so = false →
       video_snapshot_run max_object_size so resp
           = .ok (.base64Str (b64encode resp.body)) ∧
         image_process_run max_object_size so resp
           = .ok (.base64Str (b64encode resp.body)) ∧
         image_format_run max_object_size so resp
           = .ok (.base64Str (b64encode resp.body)) ∧
         image_resize_run max_object_size so resp
           = .ok (.base64Str (b64encode resp.body)) ∧
         image_watermark_run max_object_size so resp
           = .ok (.base64Str (b64encode resp.body)) ∧
         image_blind_watermark_run max_object_size so resp
           = .ok (.base64Str (b64encode resp.body))) := by
  have h2 : ¬ resp.contentLength.getD 0 > max_object_size := by omega
  constructor
  · intro s hs
    constructor
    · refine ⟨?_, ?_, ?_, ?_, ?_, ?_⟩ <;>
        simp [video_snapshot_run, image_process_run, image_format_run,
          image_resize_run, image_watermark_run, image_blind_watermark_run,
          fetchWith, saveasTail, truthy, hok, h2, hs]
    · simp [saveQuery, hs]
  · intro so hso
    refine ⟨?_, ?_, ?_, ?_, ?_, ?_⟩ <;>
      simp [video_snapshot_run, image_process_run, image_format_run,
        image_resize_run, image_watermark_run, image_blind_watermark_run,
        fetchWith, saveasTail, hok, h2, hso]

/-- Claim C5, witness: a saveas target yields UTF-8 stored-object info,
no target yields base64 content. -/
theorem C5_witness :
    video_snapshot_run 10 (some "out.png") ⟨200, some 3, [1, 2, 3]⟩
        = .ok (.utf8Text [1, 2, 3]) ∧
      video_snapshot_run 10 none ⟨200, some 3, [1, 2, 3]⟩
        = .ok (.base64Str (b64encode [1, 2, 3])) :=
  ⟨(((C5 10 ⟨200, some 3, [1, 2, 3]⟩ none (Or.inl rfl) (by decide)).1
      "out.png" (by decide)).1).1,
   ((C5 10 ⟨200, some 3, [1, 2, 3]⟩ none (Or.inl rfl) (by decide)).2
      none rfl).1⟩

/-- Claim C6: a successful `get_object` decodes the body as UTF-8 text
exactly when the lowercased key ends with one of the known text
extensions, and base64-encodes it otherwise. -/
theorem C6 (max_object_size : Nat) (key : String) (resp : TosResponse)
    (hok : resp.status_code = 200 ∨ resp.status_code = 206)
    (hlen : resp.contentLength.getD 0 ≤ max_object_size) :
    get_object max_object_size key resp
        = .ok (if is_text_file key then .utf8Text resp.body
               else .base64Str (b64encode resp.body)) ∧
      (is_text_file key = true ↔
        ∃ ext ∈ ([".txt", ".log", ".json", ".xml", ".yml", ".yaml", ".md",
                  ".csv", ".ini", ".conf", ".py", ".js", ".html", ".css",
                  ".sh", ".bash", ".cfg", ".properties"] : List String),
          pyEndsWith (pyLower key) ext = true) := by
  have h2 : ¬ resp.contentLength.getD 0 > max_object_size := by omega
  constructor
  · simp [get_object, fetchWith, hok, h2]
  · simp [is_text_file, text_extensions, List.any_eq_true]

/-- Claim C6, witness at an uppercase text key. -/
theorem C6_witness :
    get_object 10 "A.TXT" ⟨200, some 2, [104, 105]⟩
        = .ok (if is_text_file "A.TXT" then .utf8Text [104, 105]
               else .base64Str (b64encode [104, 105])) ∧
      (is_text_file "A.TXT" = true ↔
        ∃ ext ∈ ([".txt", ".log", ".json", ".xml", ".yml", ".yaml", ".md",
                  ".csv", ".ini", ".conf", ".py", ".js", ".html", ".css",
                  ".sh", ".bash", ".cfg", ".properties"] : List String),
          pyEndsWith (pyLower "A.TXT") ext = true) :=
  C6 10 "A.TXT" ⟨200, some 2, [104, 105]⟩ (Or.inl rfl) (by decide)

theorem afterFirstSpace_append (cs : List Char) (h : ' ' ∉ cs)
    (r : List Char) : afterFirstSpace (cs ++ ' ' :: r) = some r := by
  induction cs with
  | nil => rfl
  | cons c cs ih =>
    rw [List.cons_append]
    show (if c = ' ' then some (cs ++ ' ' :: r)
          else afterFirstSpace (cs ++ ' ' :: r)) = some r
    rw [if_neg (fun hc => h (by simp [hc]))]
    exact ih (fun hm => h (List.mem_cons_of_mem c hm))

theorem afterFirstSpace_none (cs : List Char) (h : ' ' ∉ cs) :
    afterFirstSpace cs = none := by
  induction cs with
  | nil => rfl
  | cons c cs ih =>
    show (if c = ' ' then some cs else afterFirstSpace cs) = none
    rw [if_neg (fun hc => h (by simp [hc]))]
    exact ih (fun hm => h (List.mem_cons_of_mem c hm))

theorem stripScheme_split (sch rest : String) (h : ' ' ∉ sch.data) :
    stripScheme (sch ++ " " ++ rest) = rest := by
  have hd : (sch ++ " " ++ rest).data = sch.data ++ ' ' :: rest.data := by
    simp [String.data_append]
  simp only [stripScheme, hd, afterFirstSpace_append sch.data h rest.data]

theorem stripScheme_id (a : String) (h : ' ' ∉ a.data) :
    stripScheme a = a := by
  simp only [stripScheme, afterFirstSpace_none a.data h]

/-- Claim C7: the credential resolver takes the authorization value from
the header, falls back to the environment variable, errors when both are
absent, strips a scheme prefix up to the first space before decoding,
and validates that AccessKeyId, SecretAccessKey and SessionToken are all
present and non-empty, returning a Credential exactly then. -/
theorem C7 (env : Option String)
    (decodeJson : String → Except CredError StsData) :
    get_credential_from_request none none decodeJson
        = .error .missingAuth ∧
      (∀ a, get_credential_from_request (some a) env decodeJson
        = (decodeJson (stripScheme a)).bind validateCredential) ∧
      (∀ a, get_credential_from_request none (some a) decodeJson
        = (decodeJson (stripScheme a)).bind validateCredential) ∧
      (∀ sch rest : String, ' ' ∉ sch.data →
        stripScheme (sch ++ " " ++ rest) = rest) ∧
      (∀ a : String, ' ' ∉ a.data → stripScheme a = a) ∧
      (∀ (d : StsData) (ak sk st : String),
        d.AccessKeyId = some ak → d.SecretAccessKey = some sk →
        d.SessionToken = some st → ak ≠ "" → sk ≠ "" → st ≠ "" →
        validateCredential d = .ok ⟨ak, sk, st, d.ExpiredTime⟩) ∧
      (∀ d : StsData,
        ¬(truthy d.AccessKeyId = true ∧ truthy d.SecretAccessKey = true ∧
          truthy d.SessionToken = true) →
        validateCredential d = .error .invalidCred) := by
  refine ⟨rfl, fun a => rfl, fun a => rfl, stripScheme_split,
    stripScheme_id, ?_, ?_⟩
  · intro d ak sk st h1 h2 h3 hak hsk hst
    obtain ⟨ct, et, akf, skf, stf⟩ := d
    simp only at h1 h2 h3
    subst h1; subst h2; subst h3
    show validateCredential ⟨ct, et, some ak, some sk, some st⟩
        = .ok ⟨ak, sk, st, et⟩
    simp [validateCredential, hak, hsk, hst]
  · intro d hnot
    obtain ⟨ct, et, akf, skf, stf⟩ := d
    rcases akf with _ | ak
    · simp [validateCredential]
    · rcases skf with _ | sk
      · simp [validateCredential]
      · rcases stf with _ | st
        · simp [validateCredential]
        · simp only [truthy, decide_eq_true_eq] at hnot
          have hcond : ak = "" ∨ sk = "" ∨ st = "" := by tauto
          simp [validateCredential, hcond]

/-- Claim C7, witness: missing auth errors, a Bearer prefix is stripped,
complete credentials validate, incomplete ones are rejected. -/
theorem C7_witness :
    get_credential_from_request none none (fun _ => .ok {})
        = .error .missingAuth ∧
      stripScheme ("Bearer" ++ " " ++ "eyJhIjo1fQ") = "eyJhIjo1fQ" ∧
      validateCredential ⟨none, some 0, some "AK", some "SK", some "ST"⟩
        = .ok ⟨"AK", "SK", "ST", some 0⟩ ∧
      validateCredential ⟨none, none, some "AK", none, some "ST"⟩
        = .error .invalidCred :=
  ⟨(C7 none (fun _ => .ok {})).1,
   ((C7 none (fun _ => .ok {})).2.2.2.1 "Bearer" "eyJhIjo1fQ" (by decide)),
   ((C7 none (fun _ => .ok {})).2.2.2.2.2.1
     ⟨none, some 0, some "AK", some "SK", some "ST"⟩ "AK" "SK" "ST"
     rfl rfl rfl (by decide) (by decide) (by decide)),
   ((C7 none (fun _ => .ok {})).2.2.2.2.2.2
     ⟨none, none, some "AK", none, some "ST"⟩ (by decide))⟩

/-- Claim C10: no expiry check is performed; once the three key fields
are present and non-empty the credential is returned whatever
CurrentTime and ExpiredTime hold, the latter copied through
unexamined. -/
theorem C10 (ct et : Option Int) (ak sk st : String)
    (hak : ak ≠ "") (hsk : sk ≠ "") (hst : st ≠ "")
    (auth : String) (env : Option String) :
    get_credential_from_request (some auth) env
      (fun _ => .ok ⟨ct, et, some ak, some sk, some st⟩)
      = .ok ⟨ak, sk, st, et⟩ := by
  show validateCredential ⟨ct, et, some ak, some sk, some st⟩
      = .ok ⟨ak, sk, st, et⟩
  simp [validateCredential, hak, hsk, hst]

theorem watermarkFields_keys (c : WatermarkConfig) :
    (watermarkFields c).map Prod.fst = watermarkKeys := rfl

theorem watermarkParams_shape (c : WatermarkConfig) :
    ∀ q ∈ watermarkParams c,
      ∃ k v, k ∈ watermarkKeys ∧ q = k ++ "_" ++ v := by
  intro q hq
  simp only [watermarkParams, List.mem_flatMap] at hq
  obtain ⟨kv, hkv, hmem⟩ := hq
  rcases h2 : kv.2 with _ | v
  · rw [h2] at hmem
    simp at hmem
  · rw [h2] at hmem
    simp only [List.mem_singleton] at hmem
    refine ⟨kv.1, v, ?_, hmem⟩
    have hk : kv.1 ∈ (watermarkFields c).map Prod.fst :=
      List.mem_map_of_mem Prod.fst hkv
    rw [watermarkFields_keys] at hk
    exact hk

theorem watermarkAction_of_ne (c : WatermarkConfig)
    (hne : watermarkParams c ≠ []) :
    watermarkAction c
      = some ("watermark," ++
          String.intercalate "," (watermarkParams c)) := by
  cases hps : watermarkParams c with
  | nil => exact absurd hps hne
  | cons p ps => simp [watermarkAction, hps]

/-- Claim C3: whenever some watermark config contributes at least one
parameter, the produced directive conforms to the comma/slash grammar:
it starts with `image/`, actions are joined by `/`, and inside an action
the word `watermark` and the `key_value` parameters are joined by `,`. -/
theorem C3 (ws : List WatermarkConfig)
    (h : ∃ c ∈ ws, watermarkParams c ≠ []) :
    conformsWatermarkGrammar (image_watermark_process ws) := by
  refine ⟨ws.filterMap watermarkAction, ?_, rfl, ?_⟩
  · obtain ⟨c, hc, hne⟩ := h
    intro hnil
    have hnone := List.filterMap_eq_nil_iff.mp hnil c hc
    rw [watermarkAction_of_ne c hne] at hnone
    exact Option.noConfusion hnone
  · intro a ha
    rw [List.mem_filterMap] at ha
    obtain ⟨c, hc, hact⟩ := ha
    have hne : watermarkParams c ≠ [] := by
      intro hnil
      rw [watermarkAction, hnil] at hact
      exact Option.noConfusion hact
    refine ⟨watermarkParams c, hne, ?_, watermarkParams_shape c⟩
    rw [watermarkAction_of_ne c hne] at hact
    cases hact
    rw [intercalate_cons "," "watermark" (watermarkParams c) hne]
    rfl

/-- Claim C3, witness at a single text watermark config. -/
theorem C3_witness :
    conformsWatermarkGrammar
      (image_watermark_process [{ text := some "hi" }]) :=
  C3 [{ text := some "hi" }]
    ⟨{ text := some "hi" }, List.mem_singleton.mpr rfl, by decide⟩

/-- Claim C10, witness: an ExpiredTime of 0 (long past) with a much
later CurrentTime is still accepted. -/
theorem C10_witness :
    get_credential_from_request (some "abc") none
      (fun _ => .ok ⟨some 1760000000, some 0, some "AK", some "SK",
                     some "ST"⟩)
      = .ok ⟨"AK", "SK", "ST", some 0⟩ :=
  C10 (some 1760000000) (some 0) "AK" "SK" "ST"
    (by decide) (by decide) (by decide) "abc" none

end Tos

